import Mathlib

/-!
Verification of the VisionLab interactive annotation editor.

The definitions below are a shallow embedding of the annotation-editor
logic of the repository: the vanilla-JS editor (state object, canvas
mouse handlers, history manager, detection importer of `app.js`) and,
for the box-commit comparison, the React `AnnotationCanvas` component.
Coordinates are modelled as integers: the source computes with JS
floats, and every operation the embedded logic performs on them
(+, −, min, abs, comparisons) is exact over integers; only the
midpoint resize handles divide by two, where integer division rounds
half-pixel centres down.
JS stacks (arrays used with push/pop) are modelled as lists whose head
is the top of the stack.  Handlers that can dereference `undefined`
are modelled in `Except String`.
-/

namespace VisionLab

/-- A point in image space. -/
structure Pt where
  x : ℤ
  y : ℤ
deriving Repr, DecidableEq

/-- The `data` payload of a bbox record: `{x, y, width, height}`. -/
structure BboxData where
  x : ℤ
  y : ℤ
  width : ℤ
  height : ℤ
deriving Repr, DecidableEq

/-- Payload of a committed shape, discriminated in the source by the
string field `annotation_type` (values `bbox` and `polygon`). -/
inductive AnnData where
  | bbox (b : BboxData)
  | polygon (points : List Pt)
deriving Repr, DecidableEq

/-- One committed record: `{class_id, annotation_type, data}`. -/
structure Ann where
  class_id : Int
  data : AnnData
deriving Repr, DecidableEq

/-- A project class `{id, name, color}`. -/
structure ClassDef where
  id : Int
  name : String
  color : String
deriving Repr, DecidableEq

/-- The tool selected in the sidebar (`state.selectedTool`). -/
inductive Tool where
  | select
  | bbox
  | polygon
  | brush
deriving Repr, DecidableEq

/-- A resize handle tag, one of the eight strings used by the source. -/
inductive Handle where
  | nw
  | n
  | ne
  | e
  | se
  | s
  | sw
  | w
deriving Repr, DecidableEq

/-- The mutable editor state (the fields of the global `state` object
that the annotation editor reads or writes).  `selectedAnn` models
`state.selectedAnnotation` (−1 = none); `numImages` models
`state.images.length`. -/
structure EditorState where
  annotations : List Ann
  classes : List ClassDef
  selectedClass : Option Int
  selectedTool : Tool
  isDrawing : Bool
  drawStart : Option Pt
  drawCurrent : Option Pt
  undoStack : List (List Ann)
  redoStack : List (List Ann)
  selectedAnn : Int
  isResizing : Bool
  resizeHandle : Option Handle
  isDragging : Bool
  dragStart : Option Pt
  polygonPoints : List Pt
  imageIndex : Int
  numImages : Nat
deriving Repr, DecidableEq

/-- The initial `state` object literal of the source. -/
def initState : EditorState where
  annotations := []
  classes := []
  selectedClass := none
  selectedTool := Tool.select
  isDrawing := false
  drawStart := none
  drawCurrent := none
  undoStack := []
  redoStack := []
  selectedAnn := -1
  isResizing := false
  resizeHandle := none
  isDragging := false
  dragStart := none
  polygonPoints := []
  imageIndex := 0
  numImages := 0

/-- JS truthiness of a class id slot: `null`/`undefined` and `0` are
falsy, every other number is truthy. -/
def truthyClass : Option Int → Bool
  | none => false
  | some i => decide (i ≠ 0)

/-- `isPointInBbox(x, y, bbox)`: inclusive containment test. -/
def isPointInBbox (x y : ℤ) (b : BboxData) : Bool :=
  decide (b.x ≤ x ∧ x ≤ b.x + b.width ∧ b.y ≤ y ∧ y ≤ b.y + b.height)

/-- Position of one of the eight handles of a box. -/
def handlePos (b : BboxData) : Handle → Pt
  | Handle.nw => ⟨b.x, b.y⟩
  | Handle.n => ⟨b.x + b.width / 2, b.y⟩
  | Handle.ne => ⟨b.x + b.width, b.y⟩
  | Handle.e => ⟨b.x + b.width, b.y + b.height / 2⟩
  | Handle.se => ⟨b.x + b.width, b.y + b.height⟩
  | Handle.s => ⟨b.x + b.width / 2, b.y + b.height⟩
  | Handle.sw => ⟨b.x, b.y + b.height⟩
  | Handle.w => ⟨b.x, b.y + b.height / 2⟩

/-- `getResizeHandleAtPoint(x, y, ann)`: returns the first of the eight
handles (in the source array order) whose 10-px tolerance square
contains the point; `null` for a missing record or a polygon. -/
def getResizeHandleAtPoint (x y : ℤ) (a? : Option Ann) : Option Handle :=
  match a? with
  | none => none
  | some a =>
    match a.data with
    | AnnData.polygon _ => none
    | AnnData.bbox b =>
      [Handle.nw, Handle.n, Handle.ne, Handle.e,
       Handle.se, Handle.s, Handle.sw, Handle.w].find? fun h =>
        let p := handlePos b h
        decide (|x - p.x| < 10 ∧ |y - p.y| < 10)

/-- The downward for-loop of `findAnnotationAtPoint`: scan indices
`k−1, k−2, …, 0` and return the first bbox record containing the
point (polygon records are not tested by the source), else −1. -/
def findFromIndex (x y : ℤ) (anns : List Ann) : Nat → Int
  | 0 => -1
  | k + 1 =>
    match anns[k]? with
    | some a =>
      match a.data with
      | AnnData.bbox b =>
        if isPointInBbox x y b then Int.ofNat k else findFromIndex x y anns k
      | AnnData.polygon _ => findFromIndex x y anns k
    | none => findFromIndex x y anns k

/-- `findAnnotationAtPoint(x, y)`: reverse-insertion-order hit test. -/
def findAnnAtPoint (x y : ℤ) (anns : List Ann) : Int :=
  findFromIndex x y anns anns.length

/-- The minimum-size clamp applied at the end of `resizeBbox`:
`if (bbox.width < 10) bbox.width = 10` (same for height). -/
def clampQ (w : ℤ) : ℤ :=
  if w < 10 then 10 else w

/-- The handle-specific edits of the `resizeBbox` switch (before the
clamp). -/
def applyHandle (b : BboxData) (h : Handle) (dx dy : ℤ) : BboxData :=
  match h with
  | Handle.nw => ⟨b.x + dx, b.y + dy, b.width - dx, b.height - dy⟩
  | Handle.n => ⟨b.x, b.y + dy, b.width, b.height - dy⟩
  | Handle.ne => ⟨b.x, b.y + dy, b.width + dx, b.height - dy⟩
  | Handle.e => ⟨b.x, b.y, b.width + dx, b.height⟩
  | Handle.se => ⟨b.x, b.y, b.width + dx, b.height + dy⟩
  | Handle.s => ⟨b.x, b.y, b.width, b.height + dy⟩
  | Handle.sw => ⟨b.x + dx, b.y, b.width - dx, b.height + dy⟩
  | Handle.w => ⟨b.x + dx, b.y, b.width - dx, b.height⟩

/-- Clamp both dimensions to the 10-px minimum. -/
def clampMinSize (b : BboxData) : BboxData :=
  { b with width := clampQ b.width, height := clampQ b.height }

/-- `resizeBbox(bbox, handle, dx, dy)`: switch on the handle, then
clamp width and height to the minimum size. -/
def resizeBbox (b : BboxData) (h : Handle) (dx dy : ℤ) : BboxData :=
  clampMinSize (applyHandle b h dx dy)

/-- `selectTool(tool)`: only records the chosen tool. -/
def selectTool (t : Tool) (s : EditorState) : EditorState :=
  { s with selectedTool := t }

/-- `completePolygon()`: commits the buffered points when at least 3
are buffered and a class is (truthily) selected, then clears the
buffer unconditionally. -/
def completePolygon (s : EditorState) : EditorState :=
  let s' :=
    if 3 ≤ s.polygonPoints.length ∧ truthyClass s.selectedClass then
      { s with
        undoStack := s.annotations :: s.undoStack
        annotations := s.annotations ++
          [⟨(s.selectedClass.getD 0), AnnData.polygon s.polygonPoints⟩]
        selectedAnn := Int.ofNat s.annotations.length }
    else s
  { s' with polygonPoints := [] }

/-- `onCanvasDblClick`: completes the polygon only when the polygon
tool is active and at least 3 points are buffered. -/
def onCanvasDblClick (s : EditorState) : EditorState :=
  if s.selectedTool = Tool.polygon ∧ 3 ≤ s.polygonPoints.length then
    completePolygon s
  else s

/-- The Enter-key branch of the keyboard handler: same guard as the
double-click path. -/
def onKeyEnter (s : EditorState) : EditorState :=
  if s.selectedTool = Tool.polygon ∧ 3 ≤ s.polygonPoints.length then
    completePolygon s
  else s

/-- The class auto-selection preamble shared by the bbox and polygon
branches of `onCanvasMouseDown`: keep the selected class if truthy,
otherwise select the first defined class, otherwise abort (`none`). -/
def ensureClass (s : EditorState) : Option EditorState :=
  if truthyClass s.selectedClass then some s
  else
    match s.classes.head? with
    | some c => some { s with selectedClass := some c.id }
    | none => none

/-- `onCanvasMouseDown(e)` with the pointer already converted to image
space.  The select-tool drag check reads
`state.annotations[state.selectedAnnotation].annotation_type` without
a null guard, so a stale selection index throws there. -/
def onCanvasMouseDown (x y : ℤ) (s : EditorState) : Except String EditorState :=
  if s.selectedTool = Tool.select then
    let handle :=
      if 0 ≤ s.selectedAnn then
        getResizeHandleAtPoint x y s.annotations[s.selectedAnn.toNat]?
      else none
    match handle with
    | some h =>
      Except.ok { s with isResizing := true, resizeHandle := some h, dragStart := some ⟨x, y⟩ }
    | none =>
      if 0 ≤ s.selectedAnn then
        match s.annotations[s.selectedAnn.toNat]? with
        | none => Except.error "TypeError: cannot read annotation_type of undefined"
        | some a =>
          match a.data with
          | AnnData.bbox b =>
            if isPointInBbox x y b then
              Except.ok { s with isDragging := true, dragStart := some ⟨x, y⟩ }
            else
              Except.ok { s with selectedAnn := findAnnAtPoint x y s.annotations }
          | AnnData.polygon _ =>
            Except.ok { s with selectedAnn := findAnnAtPoint x y s.annotations }
      else
        Except.ok { s with selectedAnn := findAnnAtPoint x y s.annotations }
  else if s.selectedTool = Tool.bbox then
    match ensureClass s with
    | none => Except.ok s
    | some s1 =>
      Except.ok { s1 with isDrawing := true, drawStart := some ⟨x, y⟩, drawCurrent := some ⟨x, y⟩ }
  else if s.selectedTool = Tool.polygon then
    match ensureClass s with
    | none => Except.ok s
    | some s1 =>
      Except.ok { s1 with polygonPoints := s1.polygonPoints ++ [⟨x, y⟩] }
  else
    Except.ok s

/-- `onCanvasMouseMove(e)`: the cursor-styling block touches no state;
the resizing and dragging branches mutate the selected record in place
and advance `dragStart`; the drawing branch advances `drawCurrent`.
The resizing and dragging branches read `ann.annotation_type` and
`state.dragStart.x` without null guards. -/
def onCanvasMouseMove (x y : ℤ) (s : EditorState) : Except String EditorState :=
  if s.isResizing ∧ 0 ≤ s.selectedAnn then
    match s.annotations[s.selectedAnn.toNat]? with
    | none => Except.error "TypeError: cannot read annotation_type of undefined"
    | some a =>
      match a.data with
      | AnnData.bbox b =>
        match s.dragStart with
        | none => Except.error "TypeError: cannot read x of null"
        | some d =>
          let dx := x - d.x
          let dy := y - d.y
          let b' :=
            match s.resizeHandle with
            | some h => resizeBbox b h dx dy
            | none => clampMinSize b
          Except.ok { s with
            annotations := s.annotations.set s.selectedAnn.toNat { a with data := AnnData.bbox b' }
            dragStart := some ⟨x, y⟩ }
      | AnnData.polygon _ => Except.ok s
  else if s.isDragging ∧ 0 ≤ s.selectedAnn then
    match s.annotations[s.selectedAnn.toNat]? with
    | none => Except.error "TypeError: cannot read annotation_type of undefined"
    | some a =>
      match a.data with
      | AnnData.bbox b =>
        match s.dragStart with
        | none => Except.error "TypeError: cannot read x of null"
        | some d =>
          let dx := x - d.x
          let dy := y - d.y
          Except.ok { s with
            annotations := s.annotations.set s.selectedAnn.toNat
              { a with data := AnnData.bbox { b with x := b.x + dx, y := b.y + dy } }
            dragStart := some ⟨x, y⟩ }
      | AnnData.polygon _ => Except.ok s
  else if s.isDrawing then
    Except.ok { s with drawCurrent := some ⟨x, y⟩ }
  else
    Except.ok s

/-- `onCanvasMouseUp(e)`: ends a resize or drag without touching the
history; otherwise, if a bbox draw is in progress, commits it when
both dimensions strictly exceed 5 px (deep-copy snapshot pushed first,
new record selected) and clears the transient draw points. -/
def onCanvasMouseUp (s : EditorState) : EditorState :=
  if s.isResizing then
    { s with isResizing := false, resizeHandle := none, dragStart := none }
  else if s.isDragging then
    { s with isDragging := false, dragStart := none }
  else if ¬ s.isDrawing then s
  else
    let s1 := { s with isDrawing := false }
    let s2 :=
      if s.selectedTool = Tool.bbox then
        match s.drawStart, s.drawCurrent with
        | some st, some cur =>
          let bx := min st.x cur.x
          let by' := min st.y cur.y
          let w := |cur.x - st.x|
          let h := |cur.y - st.y|
          if 5 < w ∧ 5 < h then
            { s1 with
              undoStack := s1.annotations :: s1.undoStack
              annotations := s1.annotations ++
                [⟨(s1.selectedClass.getD 0), AnnData.bbox ⟨bx, by', w, h⟩⟩]
              selectedAnn := Int.ofNat s1.annotations.length }
          else s1
        | _, _ => s1
      else s1
    { s2 with drawStart := none, drawCurrent := none }

/-- `deleteAnnotation(index)`: snapshot, splice out the record, clear
the selection. -/
def deleteAnn (index : Nat) (s : EditorState) : EditorState :=
  { s with
    undoStack := s.annotations :: s.undoStack
    annotations := s.annotations.eraseIdx index
    selectedAnn := -1 }

/-- `undo()`: pop the undo stack into the redo stack; no-op when the
undo stack is empty. -/
def undo (s : EditorState) : EditorState :=
  match s.undoStack with
  | [] => s
  | top :: rest =>
    { s with
      redoStack := s.annotations :: s.redoStack
      annotations := top
      undoStack := rest }

/-- `redo()`: the mirror of `undo()`. -/
def redo (s : EditorState) : EditorState :=
  match s.redoStack with
  | [] => s
  | top :: rest =>
    { s with
      undoStack := s.annotations :: s.undoStack
      annotations := top
      redoStack := rest }

/-- One external detection of the inference response:
`{class_id, bbox: [x1, y1, x2, y2]}`. -/
structure Detection where
  class_id : Int
  x1 : ℤ
  y1 : ℤ
  x2 : ℤ
  y2 : ℤ
deriving Repr, DecidableEq

/-- The per-detection body of the import loop of
`autoLabelCurrentImage`: resolve the class id (falling back to
`state.classes[0]?.id`), and append the converted box when the
resolved id is truthy. -/
def importLoop (dets : List Detection) (s : EditorState) : EditorState :=
  match dets with
  | [] => s
  | det :: rest =>
    let cid? : Option Int :=
      if s.classes.any fun c => c.id = det.class_id then some det.class_id
      else s.classes.head?.map fun c => c.id
    let s' :=
      if truthyClass cid? then
        { s with annotations := s.annotations ++
            [⟨cid?.getD 0, AnnData.bbox ⟨det.x1, det.y1, det.x2 - det.x1, det.y2 - det.y1⟩⟩] }
      else s
    importLoop rest s'

/-- The detection-import branch of `autoLabelCurrentImage`: when the
detection list is non-empty, push one snapshot and run the loop. -/
def importDetections (dets : List Detection) (s : EditorState) : EditorState :=
  if 0 < dets.length then
    importLoop dets { s with undoStack := s.annotations :: s.undoStack }
  else s

/-- `loadImageForAnnotation(index)` (state effects of the success
path): bounds-check the index and replace the annotation collection
with the list fetched for the new image.  Nothing else is reset. -/
def loadImageForAnn (index : Int) (fetched : List Ann) (s : EditorState) : EditorState :=
  if index < 0 ∨ (s.numImages : Int) ≤ index then s
  else { s with annotations := fetched }

/-- `navigateImage(delta)`: bounds-check the new index, record it and
load that image. -/
def navigateImage (delta : Int) (fetched : List Ann) (s : EditorState) : EditorState :=
  let newIndex := s.imageIndex + delta
  if 0 ≤ newIndex ∧ newIndex < (s.numImages : Int) then
    loadImageForAnn newIndex fetched { s with imageIndex := newIndex }
  else s

/-- A box of the React `AnnotationCanvas` component. -/
structure RCBox where
  id : String
  x : ℤ
  y : ℤ
  width : ℤ
  height : ℤ
  classId : Int
  className : String
  color : String
deriving Repr, DecidableEq

/-- The hook state of the React `AnnotationCanvas` component. -/
structure RCState where
  boxes : List RCBox
  selectedClass : Int
  classes : List ClassDef
  isDrawing : Bool
  startPoint : Option Pt
  currentBox : Option RCBox
  isPanning : Bool
  lastPanPoint : Option Pt
  pan : Pt
deriving Repr, DecidableEq

/-- React canvas `handleMouseDown`: shift starts panning, otherwise a
draw begins at the image-space point. -/
def rcMouseDown (shiftKey : Bool) (p : Pt) (s : RCState) : RCState :=
  if shiftKey then
    { s with isPanning := true, lastPanPoint := some p }
  else
    { s with isDrawing := true, startPoint := some p }

/-- React canvas `handleMouseMove` (drawing path takes the image-space
point; the panning path takes the client-space delta already formed). -/
def rcMouseMove (p : Pt) (s : RCState) : RCState :=
  match s.isPanning, s.lastPanPoint with
  | true, some lp =>
    { s with pan := ⟨s.pan.x + (p.x - lp.x), s.pan.y + (p.y - lp.y)⟩, lastPanPoint := some p }
  | _, _ =>
    if s.isDrawing then
      match s.startPoint with
      | some sp =>
        let cls := s.classes.find? fun c => c.id = s.selectedClass
        let nb : RCBox :=
          { id := "temp"
            x := min sp.x p.x
            y := min sp.y p.y
            width := |p.x - sp.x|
            height := |p.y - sp.y|
            classId := s.selectedClass
            className := (cls.map fun c => c.name).getD "Unknown"
            color := (cls.map fun c => c.color).getD "#FF0000" }
        { s with currentBox := some nb }
      | none => s
    else s

/-- React canvas `handleMouseUp`: the drawn box is appended only when
both of its dimensions strictly exceed 10; the fresh id stands for the
`Date.now()`-derived id of the source. -/
def rcMouseUp (newId : String) (s : RCState) : RCState :=
  if s.isPanning then
    { s with isPanning := false, lastPanPoint := none }
  else
    match s.currentBox with
    | some cb =>
      if s.isDrawing ∧ 10 < cb.width ∧ 10 < cb.height then
        { s with boxes := s.boxes ++ [{ cb with id := newId }],
                 currentBox := none, isDrawing := false, startPoint := none }
      else
        { s with currentBox := none, isDrawing := false, startPoint := none }
    | none =>
      { s with currentBox := none, isDrawing := false, startPoint := none }

/-! ### Concrete scenario states

Each scenario is built from `initState` by the modelled handlers, so
every state below is reachable in the editor. -/

/-- Extract the state of a successful handler run. -/
def exOk (r : Except String EditorState) : EditorState :=
  r.toOption.getD initState

/-- A full bbox draw gesture: pointer-down, one pointer-move,
pointer-up. -/
def drawBoxGesture (x0 y0 x1 y1 : ℤ) (s : EditorState) : Except String EditorState :=
  (onCanvasMouseDown x0 y0 s).bind fun s1 =>
    (onCanvasMouseMove x1 y1 s1).map onCanvasMouseUp

/-- One project class. -/
def clsCat : ClassDef := ⟨1, "cat", "#ff0000"⟩

/-- Editor state after opening a 2-image dataset with one class. -/
def sStart : EditorState :=
  { initState with classes := [clsCat], numImages := 2 }

/-- The box committed by dragging from (10,10) to (100,80). -/
def annA : Ann := ⟨1, AnnData.bbox ⟨10, 10, 90, 70⟩⟩

/-- The box committed by dragging from (10,10) to (50,50). -/
def annB : Ann := ⟨1, AnnData.bbox ⟨10, 10, 40, 40⟩⟩

/-- After drawing `annA` with the box tool. -/
def sDrawn : EditorState :=
  exOk (drawBoxGesture 10 10 100 80 (selectTool Tool.bbox sStart))

/-- `sDrawn`, then one `undo()`. -/
def sUndone : EditorState := undo sDrawn

/-- `sUndone`, then a second committed draw gesture (a new mutation
after the undo). -/
def sMutated : EditorState := exOk (drawBoxGesture 10 10 50 50 sUndone)

/-- `sDrawn`, then the selected record deleted, then navigation to the
second image whose fetched annotation list is empty. -/
def sNavigated : EditorState :=
  navigateImage 1 [] (deleteAnn 0 sDrawn)

/-- `sDrawn` with the select tool active (start of a drag gesture). -/
def sSel : EditorState := selectTool Tool.select sDrawn

/-- `sSel` after the drag pointer-down at (20,20), inside the box. -/
def sDrag1 : EditorState := exOk (onCanvasMouseDown 20 20 sSel)

/-- `sDrag1` after the drag pointer-move to (40,30). -/
def sDrag2 : EditorState := exOk (onCanvasMouseMove 40 30 sDrag1)

/-- The completed drag gesture. -/
def sDragged : EditorState := onCanvasMouseUp sDrag2

/-- `sSel`, then `undo()`: the collection is empty again but the stale
selection index 0 survives. -/
def sStale : EditorState := undo sSel

/-- State right after the bbox-tool pointer-down at (10,10). -/
def sBoxDown : EditorState :=
  exOk (onCanvasMouseDown 10 10 (selectTool Tool.bbox sStart))

/-- `sBoxDown` after the pointer-move to (100,80): a 90×70 draw in
progress. -/
def sBoxMove : EditorState := exOk (onCanvasMouseMove 100 80 sBoxDown)

/-- `sBoxDown` after a pointer-move to (12,12) only: a 2×2 draw in
progress. -/
def sSmallMove : EditorState := exOk (onCanvasMouseMove 12 12 sBoxDown)

/-- Three polygon-tool pointer-downs from `sStart`. -/
def sPoly3 : EditorState :=
  exOk ((onCanvasMouseDown 0 0 (selectTool Tool.polygon sStart)).bind
    (fun s1 => onCanvasMouseDown 10 0 s1) |>.bind
    (fun s2 => onCanvasMouseDown 0 10 s2))

/-- Two polygon-tool pointer-downs from `sStart`. -/
def sPoly2 : EditorState :=
  exOk ((onCanvasMouseDown 0 0 (selectTool Tool.polygon sStart)).bind
    (fun s1 => onCanvasMouseDown 10 0 s1))

/-- The per-detection conversion of the importer, as performed by the
loop body: resolved (or fallback) class id plus the
`{x:x1, y:y1, width:x2−x1, height:y2−y1}` box. -/
def convertDet (classes : List ClassDef) (det : Detection) : Ann :=
  let cid : Int :=
    if classes.any fun c => c.id = det.class_id then det.class_id
    else ((classes.head?.map fun c => c.id).getD 0)
  ⟨cid, AnnData.bbox ⟨det.x1, det.y1, det.x2 - det.x1, det.y2 - det.y1⟩⟩

/-- Three detections: one resolving class id, two unresolvable ones. -/
def dets3 : List Detection :=
  [⟨1, 0, 0, 5, 5⟩, ⟨2, 10, 10, 30, 20⟩, ⟨7, 1, 2, 3, 4⟩]

/-- A committed polygon covering the unit square scaled by 10. -/
def polySquare : Ann :=
  ⟨1, AnnData.polygon [⟨0, 0⟩, ⟨10, 0⟩, ⟨10, 10⟩, ⟨0, 10⟩]⟩

/-- A committed box with the same extent as `polySquare`. -/
def bboxSquare : Ann := ⟨1, AnnData.bbox ⟨0, 0, 10, 10⟩⟩

/-- Initial React canvas state with one class selected. -/
def rcStart : RCState where
  boxes := []
  selectedClass := 1
  classes := [clsCat]
  isDrawing := false
  startPoint := none
  currentBox := none
  isPanning := false
  lastPanPoint := none
  pan := ⟨0, 0⟩

/-- React canvas after the full gesture (10,10) → (17,17): a 7×7 draw
released. -/
def rcSmall : RCState :=
  rcMouseUp "box-1" (rcMouseMove ⟨17, 17⟩ (rcMouseDown false ⟨10, 10⟩ rcStart))

end VisionLab

deriving instance DecidableEq for Except
namespace VisionLab

/-! ### Helper lemmas -/

/-- The clamp of `resizeBbox` never yields a value below 10. -/
theorem ten_le_clampQ (w : ℤ) : 10 ≤ clampQ w := by
  unfold clampQ
  split
  · exact le_refl 10
  · linarith

/-- The import loop never touches the redo stack. -/
theorem importLoop_redoStack (dets : List Detection) (s : EditorState) :
    (importLoop dets s).redoStack = s.redoStack := by
  induction dets generalizing s with
  | nil => rfl
  | cons d rest ih =>
    unfold importLoop
    dsimp only
    repeat' split
    all_goals exact (ih _).trans rfl

/-- `onCanvasMouseUp` never touches the redo stack. -/
theorem mouseUp_redoStack (s : EditorState) :
    (onCanvasMouseUp s).redoStack = s.redoStack := by
  unfold onCanvasMouseUp
  split
  · rfl
  split
  · rfl
  split
  · rfl
  · dsimp only
    split
    · split
      · split <;> rfl
      · rfl
    · rfl

/-- A successful class auto-selection changes no field besides the
selected class. -/
theorem ensureClass_inv (s s1 : EditorState) (h : ensureClass s = some s1) :
    s1.undoStack = s.undoStack ∧ s1.redoStack = s.redoStack ∧
    s1.annotations = s.annotations ∧ s1.polygonPoints = s.polygonPoints := by
  unfold ensureClass at h
  repeat' split at h
  all_goals (cases h; try exact ⟨rfl, rfl, rfl, rfl⟩)

/-- `onCanvasMouseDown` never touches either history stack. -/
theorem mouseDown_stacks (x y : ℤ) (s s1 : EditorState)
    (h : onCanvasMouseDown x y s = Except.ok s1) :
    s1.undoStack = s.undoStack ∧ s1.redoStack = s.redoStack := by
  unfold onCanvasMouseDown at h
  dsimp only at h
  repeat' split at h
  all_goals (cases h; try exact ⟨rfl, rfl⟩)
  all_goals (rename_i s2 heq
             have h12 := ensureClass_inv _ _ heq
             exact ⟨h12.1, h12.2.1⟩)

/-- `onCanvasMouseMove` touches neither history stack nor the gesture
flags. -/
theorem mouseMove_inv (x y : ℤ) (s s1 : EditorState)
    (h : onCanvasMouseMove x y s = Except.ok s1) :
    s1.undoStack = s.undoStack ∧ s1.redoStack = s.redoStack ∧
    s1.isDragging = s.isDragging ∧ s1.isResizing = s.isResizing := by
  unfold onCanvasMouseMove at h
  dsimp only at h
  repeat' split at h
  all_goals (cases h; try exact ⟨rfl, rfl, rfl, rfl⟩)

/-- A pointer-up that ends a drag or resize leaves both stacks alone. -/
theorem mouseUp_gesture (s : EditorState)
    (hd : s.isDragging = true ∨ s.isResizing = true) :
    (onCanvasMouseUp s).undoStack = s.undoStack ∧
    (onCanvasMouseUp s).redoStack = s.redoStack := by
  unfold onCanvasMouseUp
  split
  · exact ⟨rfl, rfl⟩
  · next hnr =>
    split
    · exact ⟨rfl, rfl⟩
    · next hnd =>
      rcases hd with hd | hd
      · exact absurd hd hnd
      · exact absurd hd hnr

/-! ### Claims -/

/-- C1 counterexample: from the initial state, draw a box, undo, then
draw another box (a fresh mutation); the redo stack still holds the
pre-undo snapshot and `redo()` replaces the new collection with it —
not a no-op. -/
theorem c1_counterexample :
    sMutated.redoStack = [[annA]] ∧ sMutated.annotations = [annB] ∧
    (redo sMutated).annotations = [annA] ∧ annA ≠ annB := by decide

/-- C1 (amended): no mutation clears the redo stack — deleting a
record, committing a polygon, the pointer-up box commit, and the
detection import all leave it exactly as it was. -/
theorem c1_theorem (s : EditorState) (i : Nat) (dets : List Detection) :
    (deleteAnn i s).redoStack = s.redoStack ∧
    (completePolygon s).redoStack = s.redoStack ∧
    (onCanvasMouseUp s).redoStack = s.redoStack ∧
    (importDetections dets s).redoStack = s.redoStack := by
  refine ⟨rfl, ?_, mouseUp_redoStack s, ?_⟩
  · unfold completePolygon
    dsimp only
    split <;> rfl
  · unfold importDetections
    split
    · exact importLoop_redoStack _ _
    · rfl

/-- C2 counterexample: draw a box, delete it, navigate to the second
image; the undo stack survives the navigation and `undo()` resurrects
the first image's box on the new image. -/
theorem c2_counterexample :
    sNavigated.imageIndex = 1 ∧ sNavigated.undoStack = [[annA], []] ∧
    (undo sNavigated).annotations = [annA] := by decide

/-- C4: with an empty undo stack `undo()` is a no-op, but a select-tool
pointer-down while the stale selection index 0 outlives the (now empty)
collection dereferences `undefined` and throws — reproducing the
source's missing null guard. -/
theorem c4_theorem :
    sStale.undoStack = [] ∧ undo sStale = sStale ∧ sStale.selectedAnn = 0 ∧
    sStale.annotations = [] ∧
    onCanvasMouseDown 20 20 sStale =
      Except.error "TypeError: cannot read annotation_type of undefined" := by
  decide

/-- C6: `resizeBbox` applies the handle-specific edits (corner handles
edit two edges, edge handles one) followed by the 10-px minimum-size
clamp of the trailing edge, and in particular resizing a 100×100 box
by (+20,+20) via `se` gives 120×120 with x,y fixed and via `nw` gives
x+20, y+20, 80×80. -/
theorem c6_theorem (b : BboxData) (dx dy : ℤ) :
    resizeBbox b Handle.nw dx dy =
      ⟨b.x + dx, b.y + dy, clampQ (b.width - dx), clampQ (b.height - dy)⟩ ∧
    resizeBbox b Handle.n dx dy =
      ⟨b.x, b.y + dy, clampQ b.width, clampQ (b.height - dy)⟩ ∧
    resizeBbox b Handle.ne dx dy =
      ⟨b.x, b.y + dy, clampQ (b.width + dx), clampQ (b.height - dy)⟩ ∧
    resizeBbox b Handle.e dx dy =
      ⟨b.x, b.y, clampQ (b.width + dx), clampQ b.height⟩ ∧
    resizeBbox b Handle.se dx dy =
      ⟨b.x, b.y, clampQ (b.width + dx), clampQ (b.height + dy)⟩ ∧
    resizeBbox b Handle.s dx dy =
      ⟨b.x, b.y, clampQ b.width, clampQ (b.height + dy)⟩ ∧
    resizeBbox b Handle.sw dx dy =
      ⟨b.x + dx, b.y, clampQ (b.width - dx), clampQ (b.height + dy)⟩ ∧
    resizeBbox b Handle.w dx dy =
      ⟨b.x + dx, b.y, clampQ (b.width - dx), clampQ b.height⟩ ∧
    (∀ h : Handle, 10 ≤ (resizeBbox b h dx dy).width ∧
      10 ≤ (resizeBbox b h dx dy).height) ∧
    resizeBbox ⟨0, 0, 100, 100⟩ Handle.se 20 20 = ⟨0, 0, 120, 120⟩ ∧
    resizeBbox ⟨0, 0, 100, 100⟩ Handle.nw 20 20 = ⟨20, 20, 80, 80⟩ := by
  refine ⟨rfl, rfl, rfl, rfl, rfl, rfl, rfl, rfl, ?_, by decide, by decide⟩
  intro h
  cases h <;> exact ⟨ten_le_clampQ _, ten_le_clampQ _⟩

/-- C9: with a non-empty undo stack, `undo()` then `redo()` with no
mutation in between restores exactly the pre-undo collection. -/
theorem c9_theorem (s : EditorState) (h : s.undoStack ≠ []) :
    (redo (undo s)).annotations = s.annotations := by
  rcases hu : s.undoStack with _ | ⟨top, rest⟩
  · exact absurd hu h
  · simp [undo, redo, hu]

/-- C9 witness: the law at the state reached by drawing one box. -/
theorem c9_witness :
    sDrawn.undoStack ≠ [] ∧ (redo (undo sDrawn)).annotations = sDrawn.annotations :=
  ⟨by decide, c9_theorem sDrawn (by decide)⟩

/-- C3 counterexample: a full drag gesture (down inside the selected
box at (20,20), move to (40,30), up) moves the box but pushes no
snapshot: the undo stack still only holds the pre-draw snapshot, and a
single `undo()` erases the box instead of restoring its pre-gesture
geometry. -/
theorem c3_counterexample :
    sSel.annotations = [annA] ∧ sSel.undoStack = [[]] ∧
    sDragged.annotations = [⟨1, AnnData.bbox ⟨30, 20, 90, 70⟩⟩] ∧
    sDragged.undoStack = [[]] ∧
    (undo sDragged).annotations = [] := by decide

/-- C10 counterexample: the hit test never returns a polygon — a click
at (5,5) inside a committed square polygon selects nothing (−1), while
the identical box is found; with both present the earlier box wins
although the polygon is the later-drawn record containing the point. -/
theorem c10_counterexample :
    findAnnAtPoint 5 5 [polySquare] = -1 ∧
    findAnnAtPoint 5 5 [bboxSquare] = 0 ∧
    findAnnAtPoint 5 5 [bboxSquare, polySquare] = 0 := by decide

end VisionLab
namespace VisionLab

/-- C2 (amended): image navigation replaces only the annotation
collection (with the freshly fetched list); the undo and redo stacks,
the selection index, the polygon buffer and the gesture flags all
survive the navigation unchanged. -/
theorem c2_theorem (s : EditorState) (delta : Int) (fetched : List Ann) :
    (navigateImage delta fetched s).undoStack = s.undoStack ∧
    (navigateImage delta fetched s).redoStack = s.redoStack ∧
    (navigateImage delta fetched s).selectedAnn = s.selectedAnn ∧
    (navigateImage delta fetched s).polygonPoints = s.polygonPoints ∧
    (navigateImage delta fetched s).isDrawing = s.isDrawing ∧
    (navigateImage delta fetched s).isResizing = s.isResizing ∧
    (navigateImage delta fetched s).isDragging = s.isDragging ∧
    (0 ≤ s.imageIndex + delta → s.imageIndex + delta < (s.numImages : Int) →
      (navigateImage delta fetched s).annotations = fetched) := by
  unfold navigateImage loadImageForAnn
  dsimp only
  by_cases hin : 0 ≤ s.imageIndex + delta ∧ s.imageIndex + delta < (s.numImages : Int)
  · have hns : ¬ (s.imageIndex + delta < 0 ∨ (s.numImages : Int) ≤ s.imageIndex + delta) := by
      push_neg
      exact ⟨hin.1, hin.2⟩
    rw [if_pos hin, if_neg hns]
    exact ⟨rfl, rfl, rfl, rfl, rfl, rfl, rfl, fun _ _ => rfl⟩
  · rw [if_neg hin]
    exact ⟨rfl, rfl, rfl, rfl, rfl, rfl, rfl, fun h1 h2 => absurd ⟨h1, h2⟩ hin⟩

/-- C2 witness: navigating forward after drawing and deleting a box
keeps the old undo stack and swaps in the fetched (empty) collection. -/
theorem c2_witness :
    (navigateImage 1 [] (deleteAnn 0 sDrawn)).undoStack = (deleteAnn 0 sDrawn).undoStack ∧
    (navigateImage 1 [] (deleteAnn 0 sDrawn)).annotations = [] :=
  ⟨(c2_theorem (deleteAnn 0 sDrawn) 1 []).1,
   (c2_theorem (deleteAnn 0 sDrawn) 1 []).2.2.2.2.2.2.2 (by decide) (by decide)⟩

/-- C3 (amended): a whole drag or resize gesture — pointer-down that
enters the dragging/resizing mode, a pointer-move, pointer-up — pushes
no snapshot at all: both history stacks keep their length. -/
theorem c3_theorem (s s1 s2 : EditorState) (x y u v : ℤ)
    (h1 : onCanvasMouseDown x y s = Except.ok s1)
    (hg : s1.isDragging = true ∨ s1.isResizing = true)
    (h2 : onCanvasMouseMove u v s1 = Except.ok s2) :
    (onCanvasMouseUp s2).undoStack.length = s.undoStack.length ∧
    (onCanvasMouseUp s2).redoStack.length = s.redoStack.length := by
  obtain ⟨hu1, hr1⟩ := mouseDown_stacks x y s s1 h1
  obtain ⟨hu2, hr2, hdg, hrs⟩ := mouseMove_inv u v s1 s2 h2
  have hg2 : s2.isDragging = true ∨ s2.isResizing = true := by
    rcases hg with h | h
    · exact Or.inl (hdg.trans h)
    · exact Or.inr (hrs.trans h)
  obtain ⟨hu3, hr3⟩ := mouseUp_gesture s2 hg2
  rw [hu3, hu2, hu1, hr3, hr2, hr1]
  exact ⟨rfl, rfl⟩

/-- C3 witness: the concrete drag gesture of the counterexample run. -/
theorem c3_witness :
    (onCanvasMouseUp sDrag2).undoStack.length = sSel.undoStack.length ∧
    (onCanvasMouseUp sDrag2).redoStack.length = sSel.redoStack.length :=
  c3_theorem sSel sDrag1 sDrag2 20 20 40 30 (by decide) (Or.inl (by decide)) (by decide)

/-- C5 counterexample: in the React canvas, the drag (10,10) → (17,17)
yields a 7×7 box — both dimensions exceed 5 px — yet pointer-up
commits nothing, because that implementation requires both dimensions
to exceed 10. -/
theorem c5_counterexample :
    rcSmall.boxes = [] ∧ (5 : ℤ) < 17 - 10 := by decide

/-- C5 (amended): the vanilla editor commits on pointer-up exactly when
both dimensions strictly exceed 5 px (snapshot first, new record
selected, min/abs geometry) and discards the gesture otherwise; the
React canvas instead requires both dimensions to strictly exceed 10 px
and appends without snapshot or selection. -/
theorem c5_theorem :
    (∀ (s : EditorState) (st cur : Pt),
      s.isResizing = false → s.isDragging = false → s.isDrawing = true →
      s.selectedTool = Tool.bbox → s.drawStart = some st → s.drawCurrent = some cur →
      ((5 < |cur.x - st.x| ∧ 5 < |cur.y - st.y| →
          onCanvasMouseUp s = { s with
            isDrawing := false
            undoStack := s.annotations :: s.undoStack
            annotations := s.annotations ++
              [⟨s.selectedClass.getD 0,
                AnnData.bbox ⟨min st.x cur.x, min st.y cur.y, |cur.x - st.x|, |cur.y - st.y|⟩⟩]
            selectedAnn := Int.ofNat s.annotations.length
            drawStart := none
            drawCurrent := none }) ∧
       (¬ (5 < |cur.x - st.x| ∧ 5 < |cur.y - st.y|) →
          onCanvasMouseUp s =
            { s with isDrawing := false, drawStart := none, drawCurrent := none }))) ∧
    (∀ (rs : RCState) (cb : RCBox) (newId : String),
      rs.isPanning = false → rs.isDrawing = true → rs.currentBox = some cb →
      ((10 < cb.width ∧ 10 < cb.height →
          rcMouseUp newId rs = { rs with
            boxes := rs.boxes ++ [{ cb with id := newId }]
            currentBox := none
            isDrawing := false
            startPoint := none }) ∧
       (¬ (10 < cb.width ∧ 10 < cb.height) →
          rcMouseUp newId rs =
            { rs with currentBox := none, isDrawing := false, startPoint := none }))) := by
  constructor
  · intro s st cur hnr hnd hdrw htool hst hcur
    constructor
    · intro hbig
      unfold onCanvasMouseUp
      rw [if_neg (by simp [hnr])]
      rw [if_neg (by simp [hnd])]
      rw [if_neg (by simp [hdrw])]
      dsimp only
      rw [if_pos htool, hst, hcur]
      dsimp only
      rw [if_pos hbig]
    · intro hsmall
      unfold onCanvasMouseUp
      rw [if_neg (by simp [hnr])]
      rw [if_neg (by simp [hnd])]
      rw [if_neg (by simp [hdrw])]
      dsimp only
      rw [if_pos htool, hst, hcur]
      dsimp only
      rw [if_neg hsmall]
  · intro rs cb newId hnp hdrw hcb
    constructor
    · intro hbig
      unfold rcMouseUp
      rw [if_neg (by simp [hnp]), hcb]
      dsimp only
      rw [if_pos ⟨hdrw, hbig.1, hbig.2⟩]
    · intro hsmall
      unfold rcMouseUp
      rw [if_neg (by simp [hnp]), hcb]
      dsimp only
      rw [if_neg (by rintro ⟨-, hw, hh⟩; exact hsmall ⟨hw, hh⟩)]

/-- C5 witness: the committing gesture (10,10) → (100,80) in the
vanilla editor and the 7×7 discard in the React canvas. -/
theorem c5_witness :
    onCanvasMouseUp sBoxMove = { sBoxMove with
      isDrawing := false
      undoStack := sBoxMove.annotations :: sBoxMove.undoStack
      annotations := sBoxMove.annotations ++ [⟨1, AnnData.bbox ⟨10, 10, 90, 70⟩⟩]
      selectedAnn := Int.ofNat sBoxMove.annotations.length
      drawStart := none
      drawCurrent := none } ∧
    onCanvasMouseUp sSmallMove =
      { sSmallMove with isDrawing := false, drawStart := none, drawCurrent := none } :=
  ⟨((c5_theorem.1 sBoxMove ⟨10, 10⟩ ⟨100, 80⟩ (by decide) (by decide) (by decide)
      (by decide) (by decide) (by decide)).1 (by decide)),
   ((c5_theorem.1 sSmallMove ⟨10, 10⟩ ⟨12, 12⟩ (by decide) (by decide) (by decide)
      (by decide) (by decide) (by decide)).2 (by decide))⟩

/-- C7: a polygon-tool completion trigger (double-click, and the Enter
key which shares its guard) with at least 3 buffered points and a
truthy selected class commits exactly one polygon holding those points
and empties the buffer; with fewer than 3 points both triggers are
no-ops that leave the whole state — buffer included — untouched. -/
theorem c7_theorem (s : EditorState) :
    (s.selectedTool = Tool.polygon → 3 ≤ s.polygonPoints.length →
      truthyClass s.selectedClass = true →
      onCanvasDblClick s = { s with
        undoStack := s.annotations :: s.undoStack
        annotations := s.annotations ++
          [⟨s.selectedClass.getD 0, AnnData.polygon s.polygonPoints⟩]
        selectedAnn := Int.ofNat s.annotations.length
        polygonPoints := [] }) ∧
    (s.polygonPoints.length < 3 → onCanvasDblClick s = s ∧ onKeyEnter s = s) ∧
    onKeyEnter s = onCanvasDblClick s := by
  refine ⟨?_, ?_, rfl⟩
  · intro htool h3 hcls
    unfold onCanvasDblClick
    rw [if_pos ⟨htool, h3⟩]
    unfold completePolygon
    dsimp only
    rw [if_pos ⟨h3, hcls⟩]
  · intro hlt
    have hng : ¬ (s.selectedTool = Tool.polygon ∧ 3 ≤ s.polygonPoints.length) := by
      rintro ⟨-, h3⟩
      omega
    constructor
    · unfold onCanvasDblClick
      rw [if_neg hng]
    · unfold onKeyEnter
      rw [if_neg hng]

/-- C7 witness: three buffered clicks commit the triangle; two buffered
clicks leave everything untouched. -/
theorem c7_witness :
    onCanvasDblClick sPoly3 = { sPoly3 with
      undoStack := sPoly3.annotations :: sPoly3.undoStack
      annotations := sPoly3.annotations ++
        [⟨1, AnnData.polygon [⟨0, 0⟩, ⟨10, 0⟩, ⟨0, 10⟩]⟩]
      selectedAnn := Int.ofNat sPoly3.annotations.length
      polygonPoints := [] } ∧
    onCanvasDblClick sPoly2 = sPoly2 :=
  ⟨(c7_theorem sPoly3).1 (by decide) (by decide) (by decide),
   ((c7_theorem sPoly2).2.1 (by decide)).1⟩

end VisionLab
namespace VisionLab

/-- The import loop leaves everything but the annotation list alone. -/
theorem importLoop_fields (dets : List Detection) (s : EditorState) :
    (importLoop dets s).undoStack = s.undoStack ∧
    (importLoop dets s).classes = s.classes := by
  induction dets generalizing s with
  | nil => exact ⟨rfl, rfl⟩
  | cons d rest ih =>
    unfold importLoop
    dsimp only
    repeat' split
    all_goals exact ⟨(ih _).1.trans rfl, (ih _).2.trans rfl⟩

/-- When at least one class exists and no class id is 0, every
detection clears the truthiness filter and the loop appends exactly
the converted records, in order. -/
theorem importLoop_spec (dets : List Detection) (s : EditorState)
    (hcls : s.classes ≠ []) (hids : ∀ c ∈ s.classes, c.id ≠ 0) :
    (importLoop dets s).annotations = s.annotations ++ dets.map (convertDet s.classes) := by
  induction dets generalizing s with
  | nil => simp [importLoop]
  | cons d rest ih =>
    unfold importLoop
    dsimp only
    rcases hh : s.classes.head? with _ | ⟨c0⟩
    · exact absurd (List.head?_eq_none_iff.mp hh) hcls
    have hc0 : c0 ∈ s.classes := List.mem_of_mem_head? (by rw [hh]; exact rfl)
    by_cases hany : s.classes.any fun c => c.id = d.class_id
    · have hres : d.class_id ≠ 0 := by
        obtain ⟨c, hc, hcid⟩ := List.any_eq_true.mp hany
        have hcid2 : c.id = d.class_id := of_decide_eq_true hcid
        have := hids c hc
        omega
      rw [if_pos hany]
      have ht : truthyClass (some d.class_id) = true := by
        simp [truthyClass, hres]
      rw [if_pos ht]
      refine (ih _ ?_ ?_).trans ?_
      · exact hcls
      · exact hids
      · simp [convertDet, hany]
    · have hres : c0.id ≠ 0 := hids c0 hc0
      rw [if_neg hany]
      have ht : truthyClass (Option.map (fun c => c.id) (some c0)) = true := by
        simp [truthyClass, hres]
      rw [if_pos ht]
      refine (ih _ ?_ ?_).trans ?_
      · exact hcls
      · exact hids
      · simp [convertDet, hany, hh]

/-- C8: with a non-empty detection batch, at least one defined class
and no zero class ids, the importer pushes exactly one snapshot,
appends one converted box per detection ({x:x1, y:y1, width:x2−x1,
height:y2−y1}, unresolved ids replaced by the first class), and a
single `undo()` restores the pre-import collection. -/
theorem c8_theorem (s : EditorState) (dets : List Detection)
    (hne : dets ≠ []) (hcls : s.classes ≠ []) (hids : ∀ c ∈ s.classes, c.id ≠ 0) :
    (importDetections dets s).annotations =
      s.annotations ++ dets.map (convertDet s.classes) ∧
    (importDetections dets s).undoStack = s.annotations :: s.undoStack ∧
    (∀ det : Detection, (convertDet s.classes det).data =
      AnnData.bbox ⟨det.x1, det.y1, det.x2 - det.x1, det.y2 - det.y1⟩) ∧
    (undo (importDetections dets s)).annotations = s.annotations ∧
    (undo (importDetections dets s)).undoStack = s.undoStack := by
  have hlen : 0 < dets.length := List.length_pos.mpr hne
  have hann : (importDetections dets s).annotations =
      s.annotations ++ dets.map (convertDet s.classes) := by
    unfold importDetections
    rw [if_pos hlen]
    refine (importLoop_spec dets _ ?_ ?_).trans ?_
    · exact hcls
    · exact hids
    · rfl
  have hund : (importDetections dets s).undoStack = s.annotations :: s.undoStack := by
    unfold importDetections
    rw [if_pos hlen]
    exact (importLoop_fields dets _).1.trans rfl
  refine ⟨hann, hund, fun det => rfl, ?_, ?_⟩
  · unfold undo
    rw [hund]
  · unfold undo
    rw [hund]

/-- C8 witness: three detections (one resolving, two falling back to
the first class) imported on top of one drawn box; a single undo
removes all three. -/
theorem c8_witness :
    (importDetections dets3 sDrawn).annotations =
      sDrawn.annotations ++ dets3.map (convertDet sDrawn.classes) ∧
    (undo (importDetections dets3 sDrawn)).annotations = sDrawn.annotations :=
  ⟨(c8_theorem sDrawn dets3 (by decide) (by decide) (by decide)).1,
   (c8_theorem sDrawn dets3 (by decide) (by decide) (by decide)).2.2.2.1⟩

/-- Appending a record does not disturb the downward scan over the
original indices. -/
theorem findFromIndex_append (x y : ℤ) (anns : List Ann) (a : Ann) :
    ∀ k, k ≤ anns.length → findFromIndex x y (anns ++ [a]) k = findFromIndex x y anns k := by
  intro k
  induction k with
  | zero => intro _; rfl
  | succ n ih =>
    intro hk
    have hn : n < anns.length := Nat.lt_of_succ_le hk
    have hget : (anns ++ [a])[n]? = anns[n]? := List.getElem?_append_left hn
    unfold findFromIndex
    rw [hget, ih (Nat.le_of_lt hn)]

/-- C10 (amended): the click hit test scans in reverse insertion order
but consults only bounding boxes: appending a box makes it win
whenever it contains the point, appending a polygon never changes the
result, the empty collection yields −1, and a select-tool pointer-down
with no active selection stores exactly this result as the new
selection index. -/
theorem c10_theorem :
    (∀ (x y : ℤ) (anns : List Ann) (cid : Int) (b : BboxData),
      findAnnAtPoint x y (anns ++ [⟨cid, AnnData.bbox b⟩]) =
        if isPointInBbox x y b then Int.ofNat anns.length else findAnnAtPoint x y anns) ∧
    (∀ (x y : ℤ) (anns : List Ann) (cid : Int) (ps : List Pt),
      findAnnAtPoint x y (anns ++ [⟨cid, AnnData.polygon ps⟩]) = findAnnAtPoint x y anns) ∧
    (∀ x y : ℤ, findAnnAtPoint x y [] = -1) ∧
    (∀ (x y : ℤ) (s : EditorState), s.selectedTool = Tool.select → s.selectedAnn < 0 →
      onCanvasMouseDown x y s =
        Except.ok { s with selectedAnn := findAnnAtPoint x y s.annotations }) := by
  have hstep : ∀ (x y : ℤ) (anns : List Ann) (a : Ann),
      findAnnAtPoint x y (anns ++ [a]) =
        match a.data with
        | AnnData.bbox b =>
          if isPointInBbox x y b then Int.ofNat anns.length else findAnnAtPoint x y anns
        | AnnData.polygon _ => findAnnAtPoint x y anns := by
    intro x y anns a
    unfold findAnnAtPoint
    rw [List.length_append, List.length_singleton]
    conv_lhs => rw [findFromIndex]
    rw [List.getElem?_concat_length]
    rcases a with ⟨cid, data⟩
    rcases data with b | ps
    · dsimp only
      rw [findFromIndex_append x y anns _ anns.length (le_refl _)]
    · dsimp only
      rw [findFromIndex_append x y anns _ anns.length (le_refl _)]
  refine ⟨?_, ?_, fun x y => rfl, ?_⟩
  · intro x y anns cid b
    rw [hstep]
  · intro x y anns cid ps
    rw [hstep]
  · intro x y s htool hsel
    unfold onCanvasMouseDown
    rw [if_pos htool]
    dsimp only
    rw [if_neg (by omega)]
    rw [if_neg (by omega)]

/-- C10 witness: a pointer-down with nothing selected stores the hit
result; appended boxes and polygons behave as characterised. -/
theorem c10_witness :
    onCanvasMouseDown 5 5 sStart =
      Except.ok { sStart with selectedAnn := findAnnAtPoint 5 5 sStart.annotations } ∧
    findAnnAtPoint 5 5 ([bboxSquare] ++ [polySquare]) = findAnnAtPoint 5 5 [bboxSquare] :=
  ⟨c10_theorem.2.2.2 5 5 sStart (by decide) (by decide),
   c10_theorem.2.1 5 5 [bboxSquare] 1 [⟨0, 0⟩, ⟨10, 0⟩, ⟨10, 10⟩, ⟨0, 10⟩]⟩

end VisionLab
